import Mathlib

/-!
Verification of the procedural world-generation engine
(`src/backend/aspects/worldgen/`): biome classification, exit generation,
terrain selection, landmark discovery and the room-generation pipeline.

The Python source is embedded shallowly:

* machine-independent pure logic (classification thresholds, exit selection,
  catalog lookups, the landmark scan) is translated definition by definition;
* the floating-point simplex-noise layers (`biome._sample`) are modelled as an
  oracle of rational-valued functions, since every property below holds for
  every possible noise value;
* the MD5-derived coordinate seeds (`overworld._coord_seed`,
  `dungeon._coord_seed`, `landmarks._landmark_seed`, and the MD5 hint hash in
  `describe._generate_fallback`) are modelled as oracle functions
  `Coord -> Nat` / `String -> Nat`: the claims under study quantify over all
  seed values, never over a specific digest;
* Python's builtin `hash` applied to direction strings (used in the sort key
  `(seed + hash(d)) % 1000` of both `_generate_exits` functions) is modelled
  as an oracle `Dir -> Nat`.  Unlike the MD5 seeds this value is salted per
  process (PYTHONHASHSEED), which is what breaks cross-process determinism;
* Python floats are modelled as rationals.  All thresholds compared against
  are short decimal literals, and the quantities compared to them (noise
  oracle values, `k/100` with `k < 100`) round identically on both sides, so
  every comparison in the code agrees with its rational counterpart.
-/

namespace Worldgen

/-- The six direction names used by the generators
(`_COORD_DELTAS` keys in `overworld.py`/`dungeon.py`). -/
inductive Dir
  | north
  | south
  | east
  | west
  | up
  | down
deriving DecidableEq, Repr

/-- Grid coordinates (x, y, z): the sole room identity. -/
abbrev Coord := Int × Int × Int

/-- `_COORD_DELTAS` from `overworld.py` (identical table in `dungeon.py`). -/
def coordDelta : Dir → Int × Int × Int
  | .north => (0, 1, 0)
  | .south => (0, -1, 0)
  | .east => (1, 0, 0)
  | .west => (-1, 0, 0)
  | .up => (0, 0, 1)
  | .down => (0, 0, -1)

/-- `_dest_coords` from `overworld.py`/`dungeon.py`. -/
def destCoords (origin : Coord) (d : Dir) : Coord :=
  (origin.1 + (coordDelta d).1, origin.2.1 + (coordDelta d).2.1,
    origin.2.2 + (coordDelta d).2.2)

/-- `_CARDINALS` from `overworld.py` (also the `cardinals` list in
`dungeon.py`), in source order. -/
def cardinals : List Dir := [.north, .south, .east, .west]

/-- The cardinal order followed by up and down: the order in which
`dungeon._generate_exits` checks the way back
(`cardinals + ["up", "down"]`). -/
def sixDirs : List Dir := [.north, .south, .east, .west, .up, .down]

/-- The direction name as the Python string (used when formatting distant
feature templates). -/
def dirName : Dir → String
  | .north => "north"
  | .south => "south"
  | .east => "east"
  | .west => "west"
  | .up => "up"
  | .down => "down"

/-- `BiomeData` from `base.py`: noise-derived biome information.
Floats are modelled as rationals. -/
structure BiomeData where
  elevation : ℚ
  moisture : ℚ
  civilization : ℚ
  weirdness : ℚ
  biome_name : String
  generator_name : String
deriving DecidableEq, Repr

/-- The four noise layers (`biome._sample` over `biome._noise2d`): modelled
as an oracle, one rational-valued function per layer.  The real layers are
deterministic float functions of (x, y); every theorem below quantifies over
all oracles, so it holds in particular for the real noise. -/
structure NoiseOracle where
  elevation : Int → Int → ℚ
  moisture : Int → Int → ℚ
  civilization : Int → Int → ℚ
  weirdness : Int → Int → ℚ

/-- `_UNDERGROUND_BIOMES` from `biome.py`: the z-indexed underground table. -/
def undergroundBiomes (z : Int) : Option String :=
  if z = -1 then some "shallow_cave"
  else if z = -2 then some "underground_passage"
  else if z = -3 then some "deep_cavern"
  else none

/-- `_classify_surface` from `biome.py`. -/
def classifySurface (elev moist civ weird : ℚ) : String :=
  if (2 : ℚ)/5 < civ then
    if (7 : ℚ)/10 < civ then "road"
    else if (3 : ℚ)/10 < elev then "hilltop_ruins"
    else "settlement_outskirts"
  else if (3 : ℚ)/5 < elev then "mountain_peak"
  else if (7 : ℚ)/20 < elev then
    if (1 : ℚ)/5 < moist then "misty_highlands" else "rocky_hills"
  else if elev < -(1 : ℚ)/2 then
    if (3 : ℚ)/10 < moist then "lake_shore" else "ravine"
  else if (1 : ℚ)/2 < moist then
    if elev < 0 then "swamp" else "dense_forest"
  else if (3 : ℚ)/20 < moist then "forest"
  else if -(1 : ℚ)/5 < moist then
    if (1 : ℚ)/10 < elev then "grassland" else "plains"
  else if moist < -(2 : ℚ)/5 then "desert"
  else "scrubland"

/-- `_apply_weirdness` from `biome.py`. -/
def applyWeirdness (biome : String) (weird : ℚ) : String :=
  if (3 : ℚ)/5 < weird then "eldritch_" ++ biome
  else if (7 : ℚ)/20 < weird then "ancient_" ++ biome
  else biome

/-- The table part of `_classify_underground`: the z-indexed base biome,
"deep_underground" below the table, else "shallow_cave". -/
def undergroundBase (z : Int) : String :=
  match undergroundBiomes z with
  | some b => b
  | none => if z < -3 then "deep_underground" else "shallow_cave"

/-- `_classify_underground` from `biome.py`. -/
def classifyUnderground (z : Int) (moist weird : ℚ) : String :=
  let base := undergroundBase z
  let base := if (2 : ℚ)/5 < moist then "underground_river" else base
  if (1 : ℚ)/2 < weird then "crystal_cavern" else base

/-- `_generator_for_biome` from `biome.py`: which generator handles a biome. -/
def generatorForBiome (biome : String) (z : Int) : String :=
  if z < 0 then "dungeon" else "overworld"

/-- `get_biome` from `biome.py`: deterministic biome data from coordinates,
given the noise oracle. -/
def getBiome (no : NoiseOracle) (x y z : Int) : BiomeData :=
  let elev := no.elevation x y
  let moist := no.moisture x y
  let civ := no.civilization x y
  let weird := no.weirdness x y
  let elev := min 1 (max (-1) (elev + (z : ℚ) * (3/10)))
  let biome :=
    if z < 0 then classifyUnderground z moist weird
    else applyWeirdness (classifySurface elev moist civ weird) weird
  { elevation := elev, moisture := moist, civilization := civ,
    weirdness := weird, biome_name := biome,
    generator_name := generatorForBiome biome z }

/-- `GenerationContext` from `base.py`.  `neighbors d` models
`d in context.neighbors and context.neighbors[d].get("has_exit_to_us")`
(the only neighbor datum the generators read; the neighbor descriptions are
consumed only by the out-of-scope LLM prompt).  `came_from_description`
feeds only that prompt and is omitted. -/
structure GenerationContext where
  came_from : Option Coord := none
  came_from_biome : Option String := none
  neighbors : Dir → Bool := fun _ => false
  biome_data : Option BiomeData := none

/-- One terrain catalog entry (the dicts of `TERRAIN_CATALOG`,
`_CAVE_TERRAIN` and the landmark terrain additions).  The Python `type` key
is spelled `ttype`. -/
structure TerrainSpec where
  name : String
  ttype : String
  description : String
  weight : Nat
  tags : List String
deriving DecidableEq, Repr

/-- `RoomBlueprint` from `base.py`.  The exits dict is modelled as the map
direction to optional destination. -/
structure RoomBlueprint where
  exits : Dir → Option Coord
  biome : String
  terrain : List TerrainSpec
  description_hint : String
  description : String := ""
  scale : String := "room"
  tags : List String := []
  distant_features : List String := []
  landmark : Option String := none

/-- Stable insertion into an ascending-by-key list: the inserted element goes
before the first strictly larger key and after equal ones it was originally
left of, matching Python's stable `list.sort(key=...)`. -/
def insertByKey (key : Dir → Nat) (d : Dir) : List Dir → List Dir
  | [] => [d]
  | e :: rest =>
    if key d ≤ key e then d :: e :: rest else e :: insertByKey key d rest

/-- Stable sort by key, modelling `remaining.sort(key=...)`. -/
def sortByKey (key : Dir → Nat) : List Dir → List Dir
  | [] => []
  | d :: rest => insertByKey key d (sortByKey key rest)

/-- The pop loop of `_seeded_sample` (`overworld.py`) and of the dungeon
terrain loop: `k` times, remove the item at `(seed + i*6311) % len` and
collect it. -/
def sampleGo (seed : Nat) : Nat → Nat → List TerrainSpec → List TerrainSpec
  | 0, _, _ => []
  | _ + 1, _, [] => []
  | k + 1, i, x :: xs =>
    let rem := x :: xs
    let idx := (seed + i * 6311) % rem.length
    rem.get ⟨idx, Nat.mod_lt _ (Nat.succ_pos _)⟩ ::
      sampleGo seed k (i + 1) (rem.eraseIdx idx)

/-- `_seeded_sample` from `overworld.py`. -/
def seededSample (seed : Nat) (items : List TerrainSpec) (k : Nat) :
    List TerrainSpec :=
  if items.length ≤ k then items else sampleGo seed k 0 items

/-- `_seeded_choice` from `overworld.py` (always called with `index = 0`). -/
def seededChoice (seed : Nat) (items : List String) : Option String :=
  match items with
  | [] => none
  | x :: xs =>
    some ((x :: xs).get ⟨seed % (x :: xs).length, Nat.mod_lt _ (Nat.succ_pos _)⟩)

/-- One entry of `EXIT_PROFILES` (`overworld.py`): typical cardinal exit
count and the probability of a vertical exit. -/
structure ExitProfile where
  base_exits : Nat
  up_down_chance : ℚ
deriving DecidableEq, Repr

/-- `EXIT_PROFILES` from `overworld.py`. -/
def EXIT_PROFILES : List (String × ExitProfile) :=
  [("plains", ⟨4, 0⟩),
   ("grassland", ⟨4, 0⟩),
   ("road", ⟨2, 0⟩),
   ("settlement_outskirts", ⟨3, 0⟩),
   ("forest", ⟨3, 0⟩),
   ("dense_forest", ⟨2, 0⟩),
   ("rocky_hills", ⟨3, 3/10⟩),
   ("misty_highlands", ⟨3, 1/5⟩),
   ("mountain_peak", ⟨2, 1/2⟩),
   ("hilltop_ruins", ⟨3, 3/10⟩),
   ("swamp", ⟨3, 1/10⟩),
   ("lake_shore", ⟨3, 0⟩),
   ("desert", ⟨3, 0⟩),
   ("scrubland", ⟨3, 0⟩),
   ("ravine", ⟨2, 2/5⟩)]

/-- `_DEFAULT_PROFILE` from `overworld.py`: for biomes not listed
(including weirdness-prefixed ones). -/
def DEFAULT_PROFILE : ExitProfile := ⟨3, 1/10⟩

/-- `EXIT_PROFILES.get(biome, _DEFAULT_PROFILE)`. -/
def exitProfileFor (biome : String) : ExitProfile :=
  (EXIT_PROFILES.lookup biome).getD DEFAULT_PROFILE

/-- `BIOME_SCALES` from `overworld.py`. -/
def BIOME_SCALES : List (String × String) :=
  [("plains", "vast"),
   ("grassland", "wide"),
   ("desert", "vast"),
   ("forest", "room"),
   ("dense_forest", "cramped"),
   ("swamp", "room"),
   ("rocky_hills", "wide"),
   ("mountain_peak", "room"),
   ("road", "wide"),
   ("settlement_outskirts", "wide"),
   ("lake_shore", "wide"),
   ("ravine", "cramped"),
   ("hilltop_ruins", "room"),
   ("misty_highlands", "wide"),
   ("scrubland", "wide")]

/-- `BIOME_TAGS` from `overworld.py`. -/
def BIOME_TAGS : List (String × List String) :=
  [("plains", ["open", "windy", "grass"]),
   ("grassland", ["open", "gentle", "grass"]),
   ("forest", ["wooded", "shaded", "birdsong"]),
   ("dense_forest", ["dark", "overgrown", "damp", "quiet"]),
   ("swamp", ["wet", "murky", "insects", "stench"]),
   ("rocky_hills", ["exposed", "rocky", "windy"]),
   ("mountain_peak", ["cold", "windy", "exposed", "high"]),
   ("desert", ["hot", "dry", "sand", "glare"]),
   ("scrubland", ["dry", "dusty", "sparse"]),
   ("lake_shore", ["water", "breeze", "pebbles"]),
   ("road", ["dusty", "flat", "worn"]),
   ("settlement_outskirts", ["civilization", "fences", "smoke"]),
   ("hilltop_ruins", ["ancient", "crumbling", "overgrown"]),
   ("ravine", ["narrow", "echoing", "damp", "shadowed"]),
   ("misty_highlands", ["misty", "heather", "windy", "damp"])]

/-- `TERRAIN_CATALOG` from `overworld.py`: terrain entities per biome. -/
def TERRAIN_CATALOG : List (String × List TerrainSpec) :=
  [("plains",
    [⟨"a patch of tall grass", "vegetation",
      "Waist-high grass sways in the breeze.", 1, ["grass", "vegetation"]⟩,
     ⟨"a weathered boulder", "rock",
      "A lone boulder, half-buried in the earth.", 500, ["rock", "climbable"]⟩,
     ⟨"a wildflower meadow", "vegetation",
      "Tiny flowers dot the ground in patches of colour.", 1,
      ["flowers", "vegetation"]⟩]),
   ("grassland",
    [⟨"a low stone wall", "structure",
      "An old stone wall, crumbling at the edges.", 999,
      ["stone", "wall", "shelter"]⟩,
     ⟨"a gentle hill", "terrain",
      "A slight rise gives a broader view of the surroundings.", 999,
      ["hill", "climbable", "vantage"]⟩]),
   ("forest",
    [⟨"a tall oak tree", "tree",
      "A gnarled oak, its branches spreading wide overhead.", 999,
      ["tree", "climbable", "wood", "shelter"]⟩,
     ⟨"a mossy log", "wood",
      "A fallen tree, soft with moss and home to small creatures.", 200,
      ["wood", "shelter", "climbable"]⟩,
     ⟨"a cluster of ferns", "vegetation",
      "Lush ferns crowd the forest floor.", 1, ["vegetation", "hiding"]⟩,
     ⟨"a birch stand", "tree",
      "Several slender birch trees, their white bark peeling.", 999,
      ["tree", "wood"]⟩]),
   ("dense_forest",
    [⟨"a massive ancient tree", "tree",
      "An enormous tree, its trunk wider than three people.", 999,
      ["tree", "ancient", "wood", "climbable"]⟩,
     ⟨"a tangle of roots", "terrain",
      "Thick roots weave across the ground like frozen serpents.", 999,
      ["roots", "dangerous"]⟩,
     ⟨"a dark thicket", "vegetation",
      "Dense thorny bushes block easy passage.", 999,
      ["bush", "blocking", "thorns"]⟩]),
   ("swamp",
    [⟨"a murky pool", "water",
      "Dark water, still and reflective. Something ripples beneath.", 999,
      ["water", "deep", "dangerous"]⟩,
     ⟨"a dead tree", "tree",
      "A bleached, leafless tree stands like a skeleton.", 999,
      ["tree", "dead", "wood"]⟩,
     ⟨"a patch of reeds", "vegetation",
      "Tall reeds whisper as the air stirs.", 1,
      ["reeds", "vegetation", "hiding"]⟩]),
   ("rocky_hills",
    [⟨"a rocky outcrop", "rock",
      "Jagged rock thrusts upward from the hillside.", 999,
      ["rock", "climbable", "vantage"]⟩,
     ⟨"a scree slope", "terrain",
      "Loose stones clatter underfoot on this unstable slope.", 999,
      ["rock", "dangerous", "unstable"]⟩]),
   ("mountain_peak",
    [⟨"a wind-carved pinnacle", "rock",
      "A needle of stone shaped by centuries of wind.", 999,
      ["rock", "landmark"]⟩,
     ⟨"a snow patch", "terrain",
      "A stubborn patch of snow clings to the shaded rock.", 999,
      ["snow", "cold", "water"]⟩]),
   ("desert",
    [⟨"a sand dune", "terrain",
      "A rippled dune of fine golden sand.", 999, ["sand", "shifting"]⟩,
     ⟨"a sun-bleached skull", "bone",
      "The skull of some large creature, half-buried in sand.", 5,
      ["bone", "mysterious"]⟩,
     ⟨"a thorny cactus", "vegetation",
      "A squat, spiny cactus. It might hold water.", 30,
      ["vegetation", "thorns", "water"]⟩]),
   ("scrubland",
    [⟨"a dry bush", "vegetation",
      "A hardy bush with dusty grey-green leaves.", 10,
      ["bush", "vegetation", "wood"]⟩,
     ⟨"a cracked stone slab", "rock",
      "A flat stone, split by heat and time.", 300, ["rock", "flat"]⟩]),
   ("lake_shore",
    [⟨"a stretch of pebbled beach", "terrain",
      "Smooth pebbles line the water's edge.", 999,
      ["pebbles", "beach", "water"]⟩,
     ⟨"a small wooden jetty", "structure",
      "A rickety jetty extends a few metres over the water.", 999,
      ["wood", "structure", "water"]⟩]),
   ("road",
    [⟨"a worn milestone", "structure",
      "A stone marker, its carved numbers barely legible.", 200,
      ["stone", "landmark", "structure"]⟩,
     ⟨"a cart rut", "terrain",
      "Deep ruts from countless passing wheels.", 999,
      ["road", "civilization"]⟩]),
   ("settlement_outskirts",
    [⟨"a wooden fence post", "structure",
      "A leaning fence post, its wire long rusted away.", 50,
      ["wood", "structure", "civilization"]⟩,
     ⟨"a small vegetable patch", "vegetation",
      "Someone has been tending rows of scraggly vegetables.", 999,
      ["vegetation", "food", "civilization"]⟩]),
   ("hilltop_ruins",
    [⟨"a crumbling wall segment", "structure",
      "Part of an old wall, overgrown with ivy.", 999,
      ["stone", "structure", "ruins", "ancient"]⟩,
     ⟨"a broken column", "structure",
      "A column base, its upper half long fallen.", 999,
      ["stone", "structure", "ruins"]⟩]),
   ("ravine",
    [⟨"a narrow ledge", "terrain",
      "A precarious ledge along the ravine wall.", 999,
      ["rock", "dangerous", "narrow"]⟩,
     ⟨"a trickle of water", "water",
      "A thin stream runs along the ravine floor.", 999,
      ["water", "stream"]⟩]),
   ("misty_highlands",
    [⟨"a heather-covered slope", "vegetation",
      "Purple heather carpets the ground in low mounds.", 999,
      ["vegetation", "flowers"]⟩,
     ⟨"a cairn of stacked stones", "structure",
      "Carefully balanced stones mark this spot.", 300,
      ["stone", "landmark", "structure"]⟩])]

/-- `_DISTANT_TEMPLATES` from `overworld.py`. -/
def DISTANT_TEMPLATES : List (String × List String) :=
  [("mountain_peak",
    ["Mountains rise to the {dir}, their peaks lost in cloud.",
     "Jagged peaks loom on the {dir}ern horizon."]),
   ("rocky_hills", ["Rolling hills stretch away to the {dir}."]),
   ("forest",
    ["A dark tree line marks the {dir}ern horizon.",
     "Forest canopy spreads to the {dir}."]),
   ("dense_forest", ["Dense woodland crowds the view to the {dir}."]),
   ("lake_shore", ["Sunlight glints off water to the {dir}."]),
   ("swamp", ["Mist hangs low over marshland to the {dir}."]),
   ("desert", ["Sand stretches endlessly to the {dir}."]),
   ("settlement_outskirts",
    ["Smoke curls from somewhere to the {dir}.",
     "A few rooftops are visible to the {dir}."]),
   ("road", ["A road stretches into the distance to the {dir}."]),
   ("hilltop_ruins", ["Ruined walls stand on a hill to the {dir}."])]

/-- `_CAVE_TERRAIN` from `dungeon.py`. -/
def CAVE_TERRAIN : List TerrainSpec :=
  [⟨"a stalagmite", "rock",
    "A cone of mineral deposits rising from the floor.", 999,
    ["rock", "cave"]⟩,
   ⟨"a dripping ceiling", "terrain",
    "Water seeps through cracks above, forming slow drops.", 999,
    ["water", "cave", "damp"]⟩,
   ⟨"a pile of loose rubble", "rock",
    "Broken stone, as if something collapsed here.", 999,
    ["rock", "rubble", "dangerous"]⟩,
   ⟨"a patch of cave moss", "vegetation",
    "Soft, pale moss clings to the damp rock.", 1,
    ["vegetation", "cave", "damp"]⟩,
   ⟨"a narrow crack in the wall", "terrain",
    "A dark fissure. Cool air flows from within.", 999,
    ["crack", "air", "cave"]⟩]

/-- The oracle bundle: the process- and hash-dependent inputs of the engine.
`owSeed`, `dgSeed`, `lmSeed` and `hintHash` stand for the MD5-derived seeds
(pure functions of their argument, identical in every process); `strHash`
stands for Python's builtin `hash` on the direction strings, which is salted
per process. -/
structure Oracles where
  noise : NoiseOracle
  owSeed : Coord → Nat
  dgSeed : Coord → Nat
  lmSeed : Coord → Nat
  hintHash : String → Nat
  strHash : Dir → Nat

/-- Strip the weirdness prefix for catalog lookups (the
`for prefix in ("eldritch_", "ancient_")` loops). -/
def stripWeird (biome : String) : String :=
  if biome.startsWith "eldritch_" then biome.drop 9
  else if biome.startsWith "ancient_" then biome.drop 8
  else biome

/-- The forced exits of `OverworldGenerator._generate_exits`: every direction
whose neighbor already points here, plus the first cardinal pointing back at
`came_from` (the loop breaks at the first match; only cardinals are
scanned). -/
def owForced (coords : Coord) (ctx : GenerationContext) : Finset Dir :=
  (sixDirs.filter ctx.neighbors).toFinset ∪
    (match ctx.came_from with
     | some cf =>
       match cardinals.find? (fun d => decide (destCoords coords d = cf)) with
       | some d => {d}
       | none => ∅
     | none => ∅)

/-- The fill loop of both `_generate_exits` functions: walk the sorted
non-forced candidates, stopping once the selection reaches the target
count. -/
def fillExits (target : Nat) : List Dir → Finset Dir → Finset Dir
  | [], s => s
  | d :: rest, s =>
    if target ≤ s.card then s else fillExits target rest (insert d s)

/-- The exit set chosen by `OverworldGenerator._generate_exits`. -/
def owSelected (coords : Coord) (biome : String) (seed : Nat)
    (ctx : GenerationContext) (strHash : Dir → Nat) : Finset Dir :=
  let profile := exitProfileFor biome
  let base_count := profile.base_exits
  let selected := owForced coords ctx
  let remaining := cardinals.filter (fun d => decide (d ∉ selected))
  let selected :=
    if selected.card < base_count ∧ remaining ≠ [] then
      fillExits base_count
        (sortByKey (fun d => (seed + strHash d) % 1000) remaining) selected
    else selected
  if 0 < profile.up_down_chance then
    if ((((seed >>> 16) % 100 : Nat) : ℚ) / 100) < profile.up_down_chance then
      if (ctx.biome_data.map (fun b => decide ((3 : ℚ)/10 < b.elevation))).getD
          false then
        insert Dir.up selected
      else insert Dir.down selected
    else selected
  else selected

/-- `OverworldGenerator._generate_exits`: the selected directions, mapped to
their destination coordinates. -/
def owGenerateExits (coords : Coord) (biome : String) (seed : Nat)
    (ctx : GenerationContext) (strHash : Dir → Nat) : Dir → Option Coord :=
  fun d =>
    if d ∈ owSelected coords biome seed ctx strHash then
      some (destCoords coords d)
    else none

/-- `OverworldGenerator._generate_terrain`. -/
def owGenerateTerrain (biome : String) (seed : Nat) : List TerrainSpec :=
  let catalog := (TERRAIN_CATALOG.lookup biome).getD []
  if catalog = [] then []
  else
    let count := 1 + seed % 3
    let count := min count catalog.length
    seededSample seed catalog count

/-- The body of the inner distance loop of
`OverworldGenerator._generate_distant_features`: probe the biome `dist`
tiles out in direction `d`; when it differs from the current biome and has a
template, return the (duplicate-checked) updated feature list, else
`none` (the caller then tries the next distance). -/
def owProbeDistant (o : Oracles) (coords : Coord) (d : Dir)
    (currentBiome : String) (feats : List String) (dist : Int) :
    Option (List String) :=
  let dl := coordDelta d
  let farX := coords.1 + dl.1 * dist
  let farY := coords.2.1 + dl.2.1 * dist
  let farZ := coords.2.2
  let farBiome := getBiome o.noise farX farY farZ
  let farName := stripWeird farBiome.biome_name
  if farName ≠ currentBiome ∧ (DISTANT_TEMPLATES.lookup farName).isSome then
    let templates := (DISTANT_TEMPLATES.lookup farName).getD []
    let seed := o.owSeed (farX, farY, farZ)
    match seededChoice seed templates with
    | some t =>
      if t ≠ "" then
        let feature := t.replace "{dir}" (dirName d)
        if feature ∈ feats then some feats else some (feats ++ [feature])
      else some feats
    | none => some feats
  else none

/-- The outer loop of `OverworldGenerator._generate_distant_features`:
cardinal exit directions in turn, each trying distances 3 then 5, stopping
once three features are collected.  Python iterates the exits dict in set
insertion order, which is itself hash-salted; the model fixes the
enumeration to `sixDirs` order (this ordering freedom is part of the same
cross-process nondeterminism recorded for the exit fill). -/
def owDistantLoop (o : Oracles) (coords : Coord) (currentBiome : String) :
    List Dir → List String → List String
  | [], feats => feats
  | d :: rest, feats =>
    if d = Dir.up ∨ d = Dir.down then owDistantLoop o coords currentBiome rest feats
    else
      let feats :=
        match owProbeDistant o coords d currentBiome feats 3 with
        | some f => f
        | none =>
          match owProbeDistant o coords d currentBiome feats 5 with
          | some f => f
          | none => feats
      if 3 ≤ feats.length then feats
      else owDistantLoop o coords currentBiome rest feats

/-- `OverworldGenerator._generate_distant_features`. -/
def owDistantFeatures (o : Oracles) (coords : Coord)
    (exits : Dir → Option Coord) (currentBiome : String) : List String :=
  owDistantLoop o coords currentBiome
    (sixDirs.filter (fun d => (exits d).isSome)) []

/-- A zero-valued `BiomeData`: `OverworldGenerator.generate` reads
`context.biome_data` unguarded (the orchestrator always sets it before
calling; Python would raise on `None`, the model substitutes this inert
value on that unreachable path). -/
def defaultBiomeData : BiomeData :=
  ⟨0, 0, 0, 0, "", ""⟩

/-- The prefix-stripped biome name `OverworldGenerator.generate` uses for
all catalog lookups. -/
def owLookupBiome (ctx : GenerationContext) : String :=
  stripWeird (ctx.biome_data.getD defaultBiomeData).biome_name

/-- The ambient tags of `OverworldGenerator.generate`: the per-biome list
plus the weirdness tags. -/
def owTags (ctx : GenerationContext) : List String :=
  let biome := ctx.biome_data.getD defaultBiomeData
  let tags := (BIOME_TAGS.lookup (owLookupBiome ctx)).getD ["unknown"]
  let tags := if (7 : ℚ)/20 < biome.weirdness then tags ++ ["ancient"] else tags
  if (3 : ℚ)/5 < biome.weirdness then tags ++ ["eldritch"] else tags

/-- The description hint of `OverworldGenerator.generate`: biome name,
optional origin, up to three tags, semicolon-joined. -/
def owHint (ctx : GenerationContext) : String :=
  let tags := owTags ctx
  let hint_parts := [((owLookupBiome ctx).replace "_" " ")]
  let hint_parts :=
    hint_parts ++
      (match ctx.came_from_biome with
       | some b => if b ≠ "" then ["arrived from " ++ b] else []
       | none => [])
  let hint_parts :=
    hint_parts ++
      (if tags ≠ [] then
        ["feels " ++ String.intercalate ", " (tags.take 3)]
      else [])
  String.intercalate "; " hint_parts

/-- `OverworldGenerator.generate`. -/
def overworldGenerate (o : Oracles) (coords : Coord)
    (ctx : GenerationContext) : RoomBlueprint :=
  { exits := owGenerateExits coords (owLookupBiome ctx) (o.owSeed coords) ctx
      o.strHash,
    biome := (ctx.biome_data.getD defaultBiomeData).biome_name,
    terrain := owGenerateTerrain (owLookupBiome ctx) (o.owSeed coords),
    description_hint := owHint ctx,
    scale := (BIOME_SCALES.lookup (owLookupBiome ctx)).getD "room",
    tags := owTags ctx,
    distant_features :=
      owDistantFeatures o coords
        (owGenerateExits coords (owLookupBiome ctx) (o.owSeed coords) ctx
          o.strHash)
        (owLookupBiome ctx) }

/-- The forced exits of `DungeonGenerator._generate_exits`: reciprocal
neighbor exits plus the way back, scanned over all six directions
(`cardinals + ["up", "down"]`, first match only). -/
def dgForced (coords : Coord) (ctx : GenerationContext) : Finset Dir :=
  (sixDirs.filter ctx.neighbors).toFinset ∪
    (match ctx.came_from with
     | some cf =>
       match sixDirs.find? (fun d => decide (destCoords coords d = cf)) with
       | some d => {d}
       | none => ∅
     | none => ∅)

/-- The exit set chosen by `DungeonGenerator._generate_exits`. -/
def dgSelected (coords : Coord) (seed : Nat) (ctx : GenerationContext)
    (strHash : Dir → Nat) : Finset Dir :=
  let selected := dgForced coords ctx
  let remaining := cardinals.filter (fun d => decide (d ∉ selected))
  let remaining := sortByKey (fun d => (seed + strHash d) % 1000) remaining
  let target := 2 + seed % 2
  let selected := fillExits target remaining selected
  if (seed >>> 12) % 3 = 0 then
    let selected := if coords.2.2 < -1 then insert Dir.down selected else selected
    if coords.2.2 < 0 then insert Dir.up selected else selected
  else selected

/-- `DungeonGenerator._generate_exits`. -/
def dgGenerateExits (coords : Coord) (seed : Nat) (ctx : GenerationContext)
    (strHash : Dir → Nat) : Dir → Option Coord :=
  fun d =>
    if d ∈ dgSelected coords seed ctx strHash then
      some (destCoords coords d)
    else none

/-- The biome name `DungeonGenerator.generate` reads from the context
(guarded, defaulting to "shallow_cave"). -/
def dgBiomeName (ctx : GenerationContext) : String :=
  (ctx.biome_data.map BiomeData.biome_name).getD "shallow_cave"

/-- The cave terrain pick of `DungeonGenerator.generate`: 1-2 entries via
the shrinking pop loop. -/
def dgTerrain (seed : Nat) : List TerrainSpec :=
  sampleGo seed (min (1 + seed % 2) CAVE_TERRAIN.length) 0 CAVE_TERRAIN

/-- The ambient tags of `DungeonGenerator.generate`. -/
def dgTags (ctx : GenerationContext) : List String :=
  let biome := dgBiomeName ctx
  let tags := ["underground", "dark", "damp", "echoing"]
  let tags := if biome = "crystal_cavern" then tags ++ ["glowing", "mystical"] else tags
  if biome = "underground_river" then tags ++ ["water", "rushing"] else tags

/-- The description hint of `DungeonGenerator.generate`. -/
def dgHint (ctx : GenerationContext) : String :=
  let biome := dgBiomeName ctx
  let hint_parts := [(biome.replace "_" " ")]
  let hint_parts :=
    hint_parts ++
      (match ctx.came_from_biome with
       | some b => if b ≠ "" then ["descended from " ++ b] else []
       | none => [])
  String.intercalate "; " hint_parts

/-- `DungeonGenerator.generate`. -/
def dungeonGenerate (o : Oracles) (coords : Coord)
    (ctx : GenerationContext) : RoomBlueprint :=
  { exits := dgGenerateExits coords (o.dgSeed coords) ctx o.strHash,
    biome := dgBiomeName ctx,
    terrain := dgTerrain (o.dgSeed coords),
    description_hint := dgHint ctx,
    scale := if o.dgSeed coords % 3 ≠ 0 then "cramped" else "room",
    tags := dgTags ctx,
    distant_features := [] }

/-- `LANDMARK_RARITY` from `landmarks.py`. -/
def LANDMARK_RARITY : Nat := 150

/-- `MAX_LANDMARK_RADIUS` from `landmarks.py`. -/
def MAX_LANDMARK_RADIUS : Nat := 5

/-- A discovered landmark (`Landmark` dataclass from `landmarks.py`). -/
structure Landmark where
  name : String
  landmark_type : String
  center : Coord
  radius : Nat
  description_modifier : String
  terrain_additions : List TerrainSpec
  biome_override : Option String := none
deriving DecidableEq, Repr

/-- One template of `LANDMARK_CATALOG`. -/
structure LandmarkEntry where
  name : String
  ltype : String
  radius : Nat
  biome_override : Option String
  description_modifier : String
  terrain : List TerrainSpec
deriving DecidableEq, Repr

/-- `LANDMARK_CATALOG` from `landmarks.py`. -/
def LANDMARK_CATALOG : List LandmarkEntry :=
  [⟨"a crumbling watchtower", "ruin", 3, some "hilltop_ruins",
    "near the ruins of an old watchtower",
    [⟨"a pile of ancient bricks", "structure",
      "Weathered bricks from a collapsed structure.", 999,
      ["stone", "ruins", "ancient"]⟩]⟩,
   ⟨"a crystal spring", "nature", 2, none,
    "near a spring of clear, sparkling water",
    [⟨"a crystal-clear pool", "water",
      "Water so clear you can see every pebble on the bottom.", 999,
      ["water", "clean", "magical"]⟩]⟩,
   ⟨"a traders' camp", "settlement", 4, some "settlement_outskirts",
    "near a well-used traders' camp",
    [⟨"a fire pit", "structure",
      "A ring of stones around old ashes. Recently used.", 999,
      ["fire", "civilization", "camp"]⟩]⟩,
   ⟨"an ancient standing stone", "mystical", 2, none,
    "in the shadow of a towering standing stone",
    [⟨"a monolith of dark stone", "structure",
      "A single upright stone, taller than two people, carved with spiralling symbols.",
      999, ["stone", "ancient", "mystical", "landmark"]⟩]⟩,
   ⟨"a collapsed mine entrance", "danger", 3, none,
    "near the gaping mouth of an old mine",
    [⟨"a rotting mine cart", "structure",
      "A wooden cart on rusted rails, half-collapsed.", 100,
      ["wood", "metal", "ruins", "civilization"]⟩]⟩,
   ⟨"a forgotten shrine", "mystical", 2, none,
    "near the remains of a small roadside shrine",
    [⟨"a worn stone altar", "structure",
      "A low stone altar, smoothed by countless hands.", 999,
      ["stone", "ancient", "mystical", "structure"]⟩]⟩,
   ⟨"a great hollow tree", "nature", 2, none,
    "beside a massive hollow tree",
    [⟨"a cavernous tree trunk", "tree",
      "The trunk is wide enough to shelter in, its interior dark and dry.",
      999, ["tree", "shelter", "ancient", "wood"]⟩]⟩,
   ⟨"a stone bridge", "ruin", 2, none,
    "near an old stone bridge spanning a dry channel",
    [⟨"a moss-covered bridge", "structure",
      "Arched stonework, still solid despite its age.", 999,
      ["stone", "structure", "ancient", "bridge"]⟩]⟩]

/-- `_is_landmark_center` from `landmarks.py`, over the seed oracle. -/
def isLandmarkCenter (lmSeed : Coord → Nat) (x y z : Int) : Bool :=
  lmSeed (x, y, z) % LANDMARK_RARITY = 0

/-- `_landmark_at` from `landmarks.py`: if the coordinates are a center, the
seed indexes the catalog (`LANDMARK_CATALOG[seed % len(LANDMARK_CATALOG)]`)
and binds the landmark. -/
def landmarkAt (lmSeed : Coord → Nat) (x y z : Int) : Option Landmark :=
  if isLandmarkCenter lmSeed x y z then
    let seed := lmSeed (x, y, z)
    let entry := LANDMARK_CATALOG.get
      ⟨seed % LANDMARK_CATALOG.length, Nat.mod_lt _ (by decide)⟩
    some
      { name := entry.name, landmark_type := entry.ltype,
        center := (x, y, z), radius := entry.radius,
        description_modifier := entry.description_modifier,
        terrain_additions := entry.terrain,
        biome_override := entry.biome_override }
  else none

/-- The scan offsets of `check_landmark`, in source order: `dx` in the outer
loop, `dy` in the inner, skipping (0, 0). -/
def scanOffsets : List (Int × Int) :=
  (List.range 11).flatMap fun i =>
    (List.range 11).filterMap fun j =>
      let dx : Int := (i : Int) - 5
      let dy : Int := (j : Int) - 5
      if dx = 0 ∧ dy = 0 then none else some (dx, dy)

/-- One step of the `check_landmark` scan: keep the best (closest) landmark
whose radius reaches the query point, updating only on a strictly smaller
Manhattan distance. -/
def scanStep (lmSeed : Coord → Nat) (x y z : Int)
    (acc : Option Landmark × Nat) (d : Int × Int) : Option Landmark × Nat :=
  match landmarkAt lmSeed (x + d.1) (y + d.2) z with
  | none => acc
  | some lm =>
    let dist := d.1.natAbs + d.2.natAbs
    if dist ≤ lm.radius ∧ dist < acc.2 then (some lm, dist) else acc

/-- `check_landmark` from `landmarks.py`. -/
def checkLandmark (lmSeed : Coord → Nat) (x y z : Int) : Option Landmark :=
  match landmarkAt lmSeed x y z with
  | some lm => some lm
  | none =>
    (scanOffsets.foldl (scanStep lmSeed x y z)
      (none, MAX_LANDMARK_RADIUS + 1)).1

/-- `_TEMPLATES` from `describe.py`. -/
def TEMPLATES : List (String × List String) :=
  [("plains",
    ["Flat {scale} grassland stretches in every direction. {terrain_ref} The wind carries the scent of dry earth.",
     "An open expanse of {scale} plain under a wide sky. {terrain_ref} {distant_ref}",
     "Tall grass ripples like water across the {scale} plain. {terrain_ref}"]),
   ("grassland",
    ["A gentle {scale} landscape of green grass and low wildflowers. {terrain_ref}",
     "Rolling {scale} grassland with a breeze that smells of summer. {terrain_ref} {distant_ref}"]),
   ("forest",
    ["Dappled light falls through the canopy of this {scale} woodland. {terrain_ref}",
     "Trees press in on all sides, their trunks like pillars in a {scale} hall. {terrain_ref}",
     "A {scale} stretch of forest, alive with birdsong and rustling leaves. {terrain_ref} {distant_ref}"]),
   ("dense_forest",
    ["The trees grow thick here, blocking most of the light. {terrain_ref} Every step crunches through old leaves.",
     "A {scale} tangle of branches and undergrowth. The air is still and humid. {terrain_ref}",
     "Ancient trees loom overhead, their roots making the ground treacherous. {terrain_ref}"]),
   ("swamp",
    ["The ground squelches underfoot in this {scale} marsh. {terrain_ref} The air is thick with insects.",
     "Murky water seeps between tussocks of rank grass. {terrain_ref} Something bubbles nearby.",
     "A {scale} expanse of boggy ground, shrouded in mist. {terrain_ref}"]),
   ("rocky_hills",
    ["Rough {scale} hillside dotted with loose stones and scrub. {terrain_ref} {distant_ref}",
     "The ground rises steeply here, rocky and exposed. {terrain_ref}"]),
   ("mountain_peak",
    ["Wind howls across this {scale} exposed summit. {terrain_ref} {distant_ref}",
     "A {scale} peak of bare rock and thin air. {terrain_ref} The view is breathtaking."]),
   ("desert",
    ["Sand and heat shimmer across this {scale} wasteland. {terrain_ref}",
     "A {scale} expanse of baked earth and silence. {terrain_ref} {distant_ref}"]),
   ("scrubland",
    ["Dry {scale} scrubland with sparse, hardy bushes. {terrain_ref}",
     "Dusty ground stretches through this {scale} scrub. {terrain_ref} {distant_ref}"]),
   ("lake_shore",
    ["Water laps gently at the shore of this {scale} lake edge. {terrain_ref}",
     "A {scale} stretch of shoreline where land meets still water. {terrain_ref} {distant_ref}"]),
   ("road",
    ["A well-worn {scale} road, packed hard by years of travel. {terrain_ref} {distant_ref}",
     "The {scale} road stretches ahead, dusty ruts marking countless journeys. {terrain_ref}"]),
   ("settlement_outskirts",
    ["Signs of habitation mark this {scale} clearing. {terrain_ref} {distant_ref}",
     "A {scale} area at the edge of settlement. {terrain_ref} Sounds of life carry on the breeze."]),
   ("hilltop_ruins",
    ["Crumbling walls and broken arches mark this {scale} ruin. {terrain_ref}",
     "Old stones lie scattered across this {scale} hilltop. {terrain_ref} {distant_ref}"]),
   ("ravine",
    ["A {scale} cleft in the earth, walls rising steeply on both sides. {terrain_ref}",
     "The {scale} ravine echoes with dripping water and your own footsteps. {terrain_ref}"]),
   ("misty_highlands",
    ["Mist drifts across this {scale} highland moor. {terrain_ref} {distant_ref}",
     "A {scale} stretch of heather-covered high ground, visibility poor in the fog. {terrain_ref}"]),
   ("shallow_cave",
    ["A {scale} cave entrance, daylight still visible behind you. {terrain_ref}",
     "Rough stone walls close in around this {scale} cavern. {terrain_ref}"]),
   ("underground_passage",
    ["A {scale} tunnel stretches into darkness. {terrain_ref} The air is cool and still.",
     "Hewn rock walls line this {scale} underground passage. {terrain_ref}"]),
   ("deep_cavern",
    ["A {scale} cavern swallows your light. {terrain_ref} Water drips somewhere unseen.",
     "The ceiling vanishes into blackness above this {scale} underground space. {terrain_ref}"]),
   ("underground_river",
    ["Dark water rushes through this {scale} underground channel. {terrain_ref}",
     "The sound of flowing water echoes through the {scale} cavern. {terrain_ref}"]),
   ("crystal_cavern",
    ["Crystalline formations catch and scatter light through this {scale} chamber. {terrain_ref}",
     "Glittering crystals stud the walls of this {scale} cavern. {terrain_ref}"]),
   ("deep_underground",
    ["The {scale} darkness is absolute here. {terrain_ref} The silence presses in.",
     "A {scale} void of stone and shadow. {terrain_ref}"])]

/-- `_DEFAULT_TEMPLATES` from `describe.py`. -/
def DEFAULT_TEMPLATES : List String :=
  ["A {scale} stretch of land. {terrain_ref}",
   "An unremarkable {scale} area. {terrain_ref} {distant_ref}"]

/-- `_terrain_ref` from `describe.py`. -/
def terrainRef (bp : RoomBlueprint) : String :=
  match bp.terrain with
  | [] => ""
  | first :: _ => "You notice " ++ first.name ++ " nearby."

/-- `_distant_ref` from `describe.py`. -/
def distantRef (bp : RoomBlueprint) : String :=
  match bp.distant_features with
  | [] => ""
  | f :: _ => f

/-- `_scale_adjective` from `describe.py`. -/
def scaleAdjective (scale : String) : String :=
  (([("cramped", "narrow"), ("room", "modest"), ("wide", "broad"),
     ("vast", "vast")] : List (String × String)).lookup scale).getD ""

/-- `_generate_fallback` from `describe.py`.  The template placeholders are
expanded by string replacement, matching `str.format` here since no
substituted text contains a brace. -/
def generateFallback (hintHash : String → Nat) (bp : RoomBlueprint) : String :=
  let biome := stripWeird bp.biome
  let templates := (TEMPLATES.lookup biome).getD DEFAULT_TEMPLATES
  let seed := hintHash bp.description_hint
  let template := (seededChoice seed templates).getD ""
  let text :=
    ((template.replace "{scale}" (scaleAdjective bp.scale)).replace
        "{terrain_ref}" (terrainRef bp)).replace
      "{distant_ref}" (distantRef bp)
  let text :=
    match bp.landmark with
    | some lm => if lm ≠ "" then text ++ " You are " ++ lm ++ "." else text
    | none => text
  let text :=
    if bp.biome.startsWith "eldritch_" then
      text ++ " The air shimmers with an unsettling, unnatural energy."
    else if bp.biome.startsWith "ancient_" then
      text ++ " There is a palpable sense of age to this place."
    else text
  text.trim

/-- `generate_room_description` from `describe.py`: the LLM collaborators
are out of scope (spec §1), so the deterministic template fallback is the
modelled path. -/
def generateRoomDescription (hintHash : String → Nat) (bp : RoomBlueprint) :
    String :=
  generateFallback hintHash bp

/-- The two registered generators (`_GENERATORS` in `worldgen/__init__.py`). -/
inductive GeneratorKind
  | overworld
  | dungeon
deriving DecidableEq, Repr

/-- The registry lookup of `_get_generator`, falling back to overworld. -/
def getGenerator (name : String) : GeneratorKind :=
  if name = "overworld" then .overworld
  else if name = "dungeon" then .dungeon
  else .overworld

/-- Dispatch to the selected generator's `generate`. -/
def runGenerator : GeneratorKind → Oracles → Coord → GenerationContext →
    RoomBlueprint
  | .overworld, o, coords, ctx => overworldGenerate o coords ctx
  | .dungeon, o, coords, ctx => dungeonGenerate o coords ctx

/-- The landmark terrain merge of `generate_room`: append each addition not
already present. -/
def addLandmarkTerrain (terrain : List TerrainSpec)
    (additions : List TerrainSpec) : List TerrainSpec :=
  additions.foldl (fun acc t => if t ∈ acc then acc else acc ++ [t]) terrain

/-- `generate_room` from `worldgen/__init__.py`: classify the biome, select
the generator, generate, overlay the landmark, fill the description. -/
def generateRoom (o : Oracles) (coords : Coord) (ctx : GenerationContext) :
    RoomBlueprint :=
  let biome_data := getBiome o.noise coords.1 coords.2.1 coords.2.2
  let ctx := { ctx with biome_data := some biome_data }
  let generator := getGenerator biome_data.generator_name
  let bp := runGenerator generator o coords ctx
  let bp :=
    match checkLandmark o.lmSeed coords.1 coords.2.1 coords.2.2 with
    | some lm =>
      { bp with
        landmark := some lm.description_modifier,
        terrain := addLandmarkTerrain bp.terrain lm.terrain_additions,
        biome :=
          if (lm.biome_override.getD "") ≠ "" ∧ lm.center = coords then
            lm.biome_override.getD ""
          else bp.biome }
    | none => bp
  { bp with description := generateRoomDescription o.hintHash bp }

/-! Concrete fixtures used by the closed witness and counterexample
statements. -/

/-- The all-zero noise oracle (every layer samples to 0). -/
def zeroNoise : NoiseOracle := ⟨fun _ _ => 0, fun _ _ => 0, fun _ _ => 0, fun _ _ => 0⟩

/-- A concrete oracle bundle: zero noise, zero seeds, a landmark seed that is
never divisible by the rarity (so no landmarks), zero string hashes. -/
def o0 : Oracles := ⟨zeroNoise, fun _ => 0, fun _ => 0, fun _ => 1, fun _ => 0, fun _ => 0⟩

/-- Like `o0` but every coordinate is a landmark center (landmark seed 0). -/
def oLm : Oracles := ⟨zeroNoise, fun _ => 0, fun _ => 0, fun _ => 0, fun _ => 0, fun _ => 0⟩

/-- Like `o0` but the dungeon seed depends on the x coordinate, as the real
MD5 seed does. -/
def oSeedX : Oracles := ⟨zeroNoise, fun _ => 0, fun c => c.1.natAbs, fun _ => 1, fun _ => 0, fun _ => 0⟩

/-- One possible per-process direction-string hash. -/
def hashA : Dir → Nat
  | .north => 0
  | .south => 1
  | .east => 2
  | .west => 3
  | .up => 4
  | .down => 5

/-- Another possible per-process direction-string hash (a different
PYTHONHASHSEED), ordering the cardinals the other way. -/
def hashB : Dir → Nat
  | .north => 3
  | .south => 2
  | .east => 1
  | .west => 0
  | .up => 4
  | .down => 5

/-- A context that arrived from directly above (0, 0, 1). -/
def ctxUp : GenerationContext := { came_from := some (0, 0, 1) }

/-- A context that arrived from one step south of (5, 6, 0). -/
def ctxSouth : GenerationContext := { came_from := some (5, 5, 0) }

/-- A context whose east neighbor already has an exit pointing back here. -/
def ctxEast : GenerationContext :=
  { neighbors := fun d => d == Dir.east }

/-- The landmark the catalog's first entry yields at center (0, 0, 0). -/
def lmWatch : Landmark :=
  ⟨"a crumbling watchtower", "ruin", (0, 0, 0), 3,
   "near the ruins of an old watchtower",
   [⟨"a pile of ancient bricks", "structure",
     "Weathered bricks from a collapsed structure.", 999,
     ["stone", "ruins", "ancient"]⟩],
   some "hilltop_ruins"⟩

/-- A biome sample whose name appears in no catalog. -/
def bdVolcano : BiomeData := ⟨0, 0, 0, 0, "volcano", "overworld"⟩

/-- A context carrying the unknown biome. -/
def ctxVolcano : GenerationContext := { biome_data := some bdVolcano }

/-- The blueprint produced by the selected generator inside `generate_room`
(before the landmark overlay and description step). -/
def generatorBlueprint (o : Oracles) (coords : Coord)
    (ctx : GenerationContext) : RoomBlueprint :=
  let biome_data := getBiome o.noise coords.1 coords.2.1 coords.2.2
  runGenerator (getGenerator biome_data.generator_name) o coords
    { ctx with biome_data := some biome_data }

/-! The landmark scan, characterized against the claim's reading: the
qualifying centers in scan order, and the first one at minimal Manhattan
distance. -/

/-- The landmarks found by the scan whose influence radius reaches the query
point, paired with their Manhattan distance, in scan order. -/
def qualifying (lmSeed : Coord → Nat) (x y z : Int) :
    List (Landmark × Nat) :=
  scanOffsets.filterMap fun d =>
    match landmarkAt lmSeed (x + d.1) (y + d.2) z with
    | none => none
    | some lm =>
      if d.1.natAbs + d.2.natAbs ≤ lm.radius then
        some (lm, d.1.natAbs + d.2.natAbs)
      else none

/-- The running-best update over a qualifying entry: keep the earlier result
unless strictly closer. -/
def bestStep (acc : Option Landmark × Nat) (p : Landmark × Nat) :
    Option Landmark × Nat :=
  if p.2 < acc.2 then (some p.1, p.2) else acc

/-- The first entry whose distance is minimal over the whole list: the
claim's "minimal Manhattan distance, ties broken by scan order". -/
def firstClosest (q : List (Landmark × Nat)) : Option Landmark :=
  (q.find? fun p => decide (∀ r ∈ q, p.2 ≤ r.2)).map Prod.fst

/-! Helper lemmas. -/

/-- Distinct directions from the same origin land on distinct tiles. -/
theorem destCoords_inj (c : Coord) (d1 d2 : Dir) :
    destCoords c d1 = destCoords c d2 ↔ d1 = d2 := by
  cases d1 <;> cases d2 <;>
    simp [destCoords, coordDelta, Prod.ext_iff] <;> omega

/-- The came-from scan over the cardinals finds exactly the cardinal
pointing back. -/
theorem find?_dest_cardinals (coords : Coord) (d : Dir) (hd : d ∈ cardinals) :
    cardinals.find?
      (fun e => decide (destCoords coords e = destCoords coords d)) = some d := by
  fin_cases hd <;> simp [cardinals, List.find?, destCoords_inj]

/-- The came-from scan over all six directions finds exactly the direction
pointing back. -/
theorem find?_dest_sixDirs (coords : Coord) (d : Dir) :
    sixDirs.find?
      (fun e => decide (destCoords coords e = destCoords coords d)) = some d := by
  cases d <;> simp [sixDirs, List.find?, destCoords_inj]

/-- Every direction is in the six-direction list. -/
theorem mem_sixDirs (d : Dir) : d ∈ sixDirs := by
  cases d <;> simp [sixDirs]

/-- The fill loop only adds directions. -/
theorem subset_fillExits (t : Nat) (l : List Dir) (s : Finset Dir) :
    s ⊆ fillExits t l s := by
  induction l generalizing s with
  | nil => simp [fillExits]
  | cons d rest ih =>
    intro x hx
    rw [fillExits]
    split
    · exact hx
    · exact ih (insert d s) (Finset.mem_insert_of_mem hx)

/-- Membership survives an optional fill step. -/
theorem mem_if_fill {x : Dir} {p : Prop} [Decidable p] {t : Nat} {l : List Dir}
    {s : Finset Dir} (hx : x ∈ s) : x ∈ (if p then fillExits t l s else s) := by
  split
  · exact subset_fillExits _ _ _ hx
  · exact hx

/-- Forced overworld exits survive into the selected exit set. -/
theorem owForced_subset_owSelected (coords : Coord) (biome : String)
    (seed : Nat) (ctx : GenerationContext) (strHash : Dir → Nat) :
    owForced coords ctx ⊆ owSelected coords biome seed ctx strHash := by
  intro x hx
  unfold owSelected
  dsimp only
  split
  · split
    · split
      · exact Finset.mem_insert_of_mem (mem_if_fill hx)
      · exact Finset.mem_insert_of_mem (mem_if_fill hx)
    · exact mem_if_fill hx
  · exact mem_if_fill hx

/-- Forced dungeon exits survive into the selected exit set. -/
theorem dgForced_subset_dgSelected (coords : Coord) (seed : Nat)
    (ctx : GenerationContext) (strHash : Dir → Nat) :
    dgForced coords ctx ⊆ dgSelected coords seed ctx strHash := by
  intro x hx
  unfold dgSelected
  dsimp only
  have h1 : x ∈ fillExits (2 + seed % 2)
      (sortByKey (fun d => (seed + strHash d) % 1000)
        (cardinals.filter (fun d => decide (d ∉ dgForced coords ctx))))
      (dgForced coords ctx) := subset_fillExits _ _ _ hx
  split
  · split
    · split
      · exact Finset.mem_insert_of_mem (Finset.mem_insert_of_mem h1)
      · exact Finset.mem_insert_of_mem h1
    · split
      · exact Finset.mem_insert_of_mem h1
      · exact h1
  · exact h1

/-- A flagged reciprocal neighbor is a forced overworld exit. -/
theorem mem_owForced_of_neighbor (coords : Coord) (ctx : GenerationContext)
    (d : Dir) (h : ctx.neighbors d = true) : d ∈ owForced coords ctx := by
  apply Finset.mem_union_left
  rw [List.mem_toFinset, List.mem_filter]
  exact ⟨mem_sixDirs d, h⟩

/-- A flagged reciprocal neighbor is a forced dungeon exit. -/
theorem mem_dgForced_of_neighbor (coords : Coord) (ctx : GenerationContext)
    (d : Dir) (h : ctx.neighbors d = true) : d ∈ dgForced coords ctx := by
  apply Finset.mem_union_left
  rw [List.mem_toFinset, List.mem_filter]
  exact ⟨mem_sixDirs d, h⟩

/-- A cardinal came-from direction is a forced overworld exit. -/
theorem mem_owForced_of_cameFrom (coords : Coord) (ctx : GenerationContext)
    (d : Dir) (hd : d ∈ cardinals)
    (h : ctx.came_from = some (destCoords coords d)) :
    d ∈ owForced coords ctx := by
  apply Finset.mem_union_right
  rw [h]
  simp only [find?_dest_cardinals coords d hd]
  exact Finset.mem_singleton_self d

/-- Any came-from direction is a forced dungeon exit. -/
theorem mem_dgForced_of_cameFrom (coords : Coord) (ctx : GenerationContext)
    (d : Dir) (h : ctx.came_from = some (destCoords coords d)) :
    d ∈ dgForced coords ctx := by
  apply Finset.mem_union_right
  rw [h]
  simp only [find?_dest_sixDirs coords d]
  exact Finset.mem_singleton_self d

/-- A selected overworld direction appears in the exits map, pointing one
step that way. -/
theorem owGenerateExits_of_mem (coords : Coord) (biome : String) (seed : Nat)
    (ctx : GenerationContext) (strHash : Dir → Nat) (d : Dir)
    (h : d ∈ owSelected coords biome seed ctx strHash) :
    owGenerateExits coords biome seed ctx strHash d =
      some (destCoords coords d) := by
  unfold owGenerateExits
  rw [if_pos h]

/-- A selected dungeon direction appears in the exits map, pointing one step
that way. -/
theorem dgGenerateExits_of_mem (coords : Coord) (seed : Nat)
    (ctx : GenerationContext) (strHash : Dir → Nat) (d : Dir)
    (h : d ∈ dgSelected coords seed ctx strHash) :
    dgGenerateExits coords seed ctx strHash d =
      some (destCoords coords d) := by
  unfold dgGenerateExits
  rw [if_pos h]

/-- The generator tag computed by `get_biome` is a function of the z level
alone: "dungeon" below ground, "overworld" at or above. -/
theorem getBiome_generator_name (no : NoiseOracle) (x y z : Int) :
    (getBiome no x y z).generator_name =
      (if z < 0 then "dungeon" else "overworld") := rfl

/-- The registry resolves the two tags to the two generators. -/
theorem getGenerator_of_tag (z : Int) :
    getGenerator (if z < 0 then "dungeon" else "overworld") =
      (if z < 0 then GeneratorKind.dungeon else GeneratorKind.overworld) := by
  split <;> rfl

/-- The landmark overlay and the description step preserve exits, scale,
tags and distant features. -/
theorem generateRoom_frame (o : Oracles) (coords : Coord)
    (ctx : GenerationContext) :
    (generateRoom o coords ctx).exits = (generatorBlueprint o coords ctx).exits ∧
      (generateRoom o coords ctx).scale = (generatorBlueprint o coords ctx).scale ∧
      (generateRoom o coords ctx).tags = (generatorBlueprint o coords ctx).tags ∧
      (generateRoom o coords ctx).distant_features =
        (generatorBlueprint o coords ctx).distant_features := by
  unfold generateRoom generatorBlueprint
  cases checkLandmark o.lmSeed coords.1 coords.2.1 coords.2.2 <;>
    exact ⟨rfl, rfl, rfl, rfl⟩

/-- `find?` only looks at the predicate's values on the list. -/
theorem find?_congr_on {α : Type} {l : List α} {p q : α → Bool}
    (h : ∀ x ∈ l, p x = q x) : l.find? p = l.find? q := by
  induction l with
  | nil => rfl
  | cons a as ih =>
    have ha := h a (List.mem_cons_self a as)
    cases hqa : q a with
    | true =>
      rw [List.find?_cons_of_pos _ (ha.trans hqa),
        List.find?_cons_of_pos _ hqa]
    | false =>
      rw [List.find?_cons_of_neg _ (by simp [ha, hqa]),
        List.find?_cons_of_neg _ (by simp [hqa])]
      exact ih fun x hx => h x (List.mem_cons_of_mem a hx)

/-- The scan fold over the raw offsets equals the best-step fold over the
qualifying entries. -/
theorem foldl_scanStep_eq (lmSeed : Coord → Nat) (x y z : Int)
    (l : List (Int × Int)) (acc : Option Landmark × Nat) :
    l.foldl (scanStep lmSeed x y z) acc =
      (l.filterMap fun d =>
        match landmarkAt lmSeed (x + d.1) (y + d.2) z with
        | none => none
        | some lm =>
          if d.1.natAbs + d.2.natAbs ≤ lm.radius then
            some (lm, d.1.natAbs + d.2.natAbs)
          else none).foldl bestStep acc := by
  induction l generalizing acc with
  | nil => rfl
  | cons d rest ih =>
    cases hlm : landmarkAt lmSeed (x + d.1) (y + d.2) z with
    | none =>
      simp only [List.foldl_cons, List.filterMap_cons, hlm]
      rw [ih]
      have : scanStep lmSeed x y z acc d = acc := by
        unfold scanStep
        rw [hlm]
      rw [this]
    | some lm =>
      simp only [List.foldl_cons, List.filterMap_cons, hlm]
      by_cases hr : d.1.natAbs + d.2.natAbs ≤ lm.radius
      · rw [if_pos hr, List.foldl_cons, ih]
        have : scanStep lmSeed x y z acc d =
            bestStep acc (lm, d.1.natAbs + d.2.natAbs) := by
          unfold scanStep bestStep
          rw [hlm]
          dsimp only
          by_cases hd : d.1.natAbs + d.2.natAbs < acc.2
          · rw [if_pos ⟨hr, hd⟩, if_pos hd]
          · rw [if_neg (fun hc => hd hc.2), if_neg hd]
        rw [this]
      · rw [if_neg hr, ih]
        have : scanStep lmSeed x y z acc d = acc := by
          unfold scanStep
          rw [hlm]
          dsimp only
          rw [if_neg (fun hc => hr hc.1)]
        rw [this]

/-- `find?` on a cons whose head satisfies the predicate. -/
theorem find?_cons_pos {α : Type} (f : α → Bool) (a : α) (l : List α)
    (h : f a = true) : (a :: l).find? f = some a :=
  List.find?_cons_of_pos _ h

/-- `find?` on a cons whose head fails the predicate. -/
theorem find?_cons_neg {α : Type} (f : α → Bool) (a : α) (l : List α)
    (h : ¬ f a = true) : (a :: l).find? f = l.find? f :=
  List.find?_cons_of_neg _ h

/-- The best-step fold keeps the initial result unless some entry is
strictly closer, in which case it returns the first entry that is minimal
over the whole list. -/
theorem foldl_bestStep_char (q : List (Landmark × Nat)) :
    ∀ (b : Option Landmark) (bd : Nat),
    (q.foldl bestStep (b, bd)).1 =
      if ∀ r ∈ q, bd ≤ r.2 then b
      else
        (q.find? fun p => decide (p.2 < bd ∧ ∀ r ∈ q, p.2 ≤ r.2)).map
          Prod.fst := by
  induction q with
  | nil => intro b bd; simp
  | cons p rest ih =>
    intro b bd
    rw [List.foldl_cons]
    by_cases hp : p.2 < bd
    · have hstep : bestStep (b, bd) p = (some p.1, p.2) := by
        unfold bestStep
        rw [if_pos hp]
      rw [hstep, ih]
      have hcond : ¬ ∀ r ∈ p :: rest, bd ≤ r.2 := fun hall =>
        absurd (hall p (List.mem_cons_self _ _)) (by omega)
      rw [if_neg hcond]
      by_cases hall : ∀ r ∈ rest, p.2 ≤ r.2
      · rw [if_pos hall]
        have hpred :
            (fun x : Landmark × Nat =>
              decide (x.2 < bd ∧ ∀ r ∈ p :: rest, x.2 ≤ r.2)) p = true := by
          simp only [decide_eq_true_eq]
          exact ⟨hp, List.forall_mem_cons.mpr ⟨le_refl _, hall⟩⟩
        rw [find?_cons_pos
          (fun x : Landmark × Nat =>
            decide (x.2 < bd ∧ ∀ r ∈ p :: rest, x.2 ≤ r.2)) p rest hpred]
        rfl
      · rw [if_neg hall]
        have hpred :
            ¬ (fun x : Landmark × Nat =>
              decide (x.2 < bd ∧ ∀ r ∈ p :: rest, x.2 ≤ r.2)) p = true := by
          simp only [decide_eq_true_eq]
          intro hc
          exact hall fun r hr => hc.2 r (List.mem_cons_of_mem _ hr)
        rw [find?_cons_neg
          (fun x : Landmark × Nat =>
            decide (x.2 < bd ∧ ∀ r ∈ p :: rest, x.2 ≤ r.2)) p rest hpred]
        obtain ⟨r0, hr0mem, hr0⟩ : ∃ r0 ∈ rest, r0.2 < p.2 := by
          push_neg at hall
          exact hall
        apply congrArg (Option.map Prod.fst)
        apply find?_congr_on
        intro x hx
        rw [decide_eq_decide]
        constructor
        · rintro ⟨h1, h2⟩
          exact ⟨h1.trans hp,
            List.forall_mem_cons.mpr ⟨le_of_lt h1, h2⟩⟩
        · rintro ⟨h1, h2⟩
          have hxr0 := (List.forall_mem_cons.mp h2).2 r0 hr0mem
          exact ⟨lt_of_le_of_lt hxr0 hr0,
            (List.forall_mem_cons.mp h2).2⟩
    · have hstep : bestStep (b, bd) p = (b, bd) := by
        unfold bestStep
        rw [if_neg hp]
      rw [hstep, ih]
      have hbdp : bd ≤ p.2 := not_lt.mp hp
      by_cases hall : ∀ r ∈ rest, bd ≤ r.2
      · have hcons : ∀ r ∈ p :: rest, bd ≤ r.2 := by
          intro r hr
          rcases List.mem_cons.mp hr with h | h
          · rw [h]; exact hbdp
          · exact hall r h
        rw [if_pos hall, if_pos hcons]
      · rw [if_neg hall,
          if_neg (fun hc =>
            hall fun r hr => hc r (List.mem_cons_of_mem _ hr))]
        have hpred :
            ¬ (fun x : Landmark × Nat =>
              decide (x.2 < bd ∧ ∀ r ∈ p :: rest, x.2 ≤ r.2)) p = true := by
          simp only [decide_eq_true_eq]
          intro hc
          exact hp hc.1
        rw [find?_cons_neg
          (fun x : Landmark × Nat =>
            decide (x.2 < bd ∧ ∀ r ∈ p :: rest, x.2 ≤ r.2)) p rest hpred]
        apply congrArg (Option.map Prod.fst)
        apply find?_congr_on
        intro x hx
        rw [decide_eq_decide]
        constructor
        · rintro ⟨h1, h2⟩
          exact ⟨h1,
            List.forall_mem_cons.mpr ⟨le_of_lt (lt_of_lt_of_le h1 hbdp), h2⟩⟩
        · rintro ⟨h1, h2⟩
          exact ⟨h1, (List.forall_mem_cons.mp h2).2⟩

/-- Every landmark the oracle can return comes from a catalog entry. -/
theorem landmarkAt_entry (lmSeed : Coord → Nat) (x y z : Int) (lm : Landmark)
    (h : landmarkAt lmSeed x y z = some lm) :
    ∃ e ∈ LANDMARK_CATALOG,
      lm.radius = e.radius ∧ lm.terrain_additions = e.terrain := by
  unfold landmarkAt at h
  split at h
  · cases h
    exact ⟨_, LANDMARK_CATALOG.get_mem _ _, rfl, rfl⟩
  · exact absurd h (by simp)

/-- Every catalog radius is at most 4. -/
theorem catalog_radius_le : ∀ e ∈ LANDMARK_CATALOG, e.radius ≤ 4 := by decide

/-- Every catalog entry carries exactly one terrain addition. -/
theorem catalog_terrain_len : ∀ e ∈ LANDMARK_CATALOG, e.terrain.length = 1 := by
  decide

/-- A returned landmark's radius is at most 4 (in particular, below the scan
bound `MAX_LANDMARK_RADIUS + 1`). -/
theorem landmarkAt_radius_le (lmSeed : Coord → Nat) (x y z : Int)
    (lm : Landmark) (h : landmarkAt lmSeed x y z = some lm) :
    lm.radius ≤ 4 := by
  obtain ⟨e, he, hr, _⟩ := landmarkAt_entry lmSeed x y z lm h
  rw [hr]
  exact catalog_radius_le e he

/-- Every qualifying entry lies within distance 4. -/
theorem qualifying_dist_le (lmSeed : Coord → Nat) (x y z : Int) :
    ∀ p ∈ qualifying lmSeed x y z, p.2 ≤ 4 := by
  intro p hp
  obtain ⟨d, _, hfd⟩ := List.mem_filterMap.mp hp
  revert hfd
  cases hlm : landmarkAt lmSeed (x + d.1) (y + d.2) z with
  | none => simp
  | some lm =>
    dsimp only
    split
    · intro he
      cases he
      exact le_trans (by assumption) (landmarkAt_radius_le _ _ _ _ _ hlm)
    · simp

/-- A nonempty list of distances has a first minimum. -/
theorem exists_min_snd :
    ∀ (q : List (Landmark × Nat)), q ≠ [] →
      ∃ x ∈ q, ∀ r ∈ q, x.2 ≤ r.2 := by
  intro q
  induction q with
  | nil => intro h; exact absurd rfl h
  | cons p rest ih =>
    intro _
    by_cases hr : rest = []
    · refine ⟨p, List.mem_cons_self _ _, ?_⟩
      intro r hrm
      rw [hr] at hrm
      rcases List.mem_cons.mp hrm with h | h
      · rw [h]
      · exact absurd h (List.not_mem_nil r)
    · obtain ⟨x, hx, hxall⟩ := ih hr
      by_cases hpx : p.2 ≤ x.2
      · refine ⟨p, List.mem_cons_self _ _, ?_⟩
        intro r hrm
        rcases List.mem_cons.mp hrm with h | h
        · rw [h]
        · exact le_trans hpx (hxall r h)
      · refine ⟨x, List.mem_cons_of_mem _ hx, ?_⟩
        intro r hrm
        rcases List.mem_cons.mp hrm with h | h
        · rw [h]; exact le_of_lt (not_le.mp hpx)
        · exact hxall r h

/-- `check_landmark` against the claim's description: the direct center when
there is one, else the first qualifying landmark at minimal Manhattan
distance. -/
theorem checkLandmark_eq_spec (lmSeed : Coord → Nat) (x y z : Int) :
    checkLandmark lmSeed x y z =
      if isLandmarkCenter lmSeed x y z then landmarkAt lmSeed x y z
      else firstClosest (qualifying lmSeed x y z) := by
  unfold checkLandmark
  by_cases hc : isLandmarkCenter lmSeed x y z = true
  · have hsome : ∃ lm, landmarkAt lmSeed x y z = some lm := by
      unfold landmarkAt
      rw [if_pos hc]
      exact ⟨_, rfl⟩
    obtain ⟨lm, hlm⟩ := hsome
    simp only [hlm, if_pos hc]
  · have hnone : landmarkAt lmSeed x y z = none := by
      unfold landmarkAt
      rw [if_neg hc]
    simp only [hnone, Bool.not_eq_true] at hc ⊢
    rw [if_neg (by simp [hc])]
    rw [foldl_scanStep_eq]
    show ((qualifying lmSeed x y z).foldl bestStep
      (none, MAX_LANDMARK_RADIUS + 1)).1 = _
    rw [foldl_bestStep_char]
    by_cases hq : qualifying lmSeed x y z = []
    · rw [hq]
      simp [firstClosest]
    · have hlt : ∀ r ∈ qualifying lmSeed x y z,
          r.2 < MAX_LANDMARK_RADIUS + 1 := fun r hr =>
        lt_of_le_of_lt (qualifying_dist_le lmSeed x y z r hr) (by decide)
      obtain ⟨r0, hr0, _⟩ := exists_min_snd _ hq
      rw [if_neg (fun hall => absurd (hall r0 hr0) (not_le.mpr (hlt r0 hr0)))]
      unfold firstClosest
      apply congrArg (Option.map Prod.fst)
      apply find?_congr_on
      intro p hp
      rw [decide_eq_decide]
      constructor
      · rintro ⟨_, h2⟩
        exact h2
      · intro h2
        exact ⟨hlt p hp, h2⟩

/-- `check_landmark` finds something exactly when the query point is a
center or some scanned center reaches it. -/
theorem checkLandmark_isSome_iff (lmSeed : Coord → Nat) (x y z : Int) :
    (checkLandmark lmSeed x y z).isSome = true ↔
      (isLandmarkCenter lmSeed x y z = true ∨
        qualifying lmSeed x y z ≠ []) := by
  rw [checkLandmark_eq_spec]
  by_cases hc : isLandmarkCenter lmSeed x y z = true
  · rw [if_pos hc]
    unfold landmarkAt
    rw [if_pos hc]
    simp [hc]
  · rw [if_neg hc]
    unfold firstClosest
    constructor
    · intro h
      right
      intro hq
      rw [hq] at h
      simp at h
    · intro hq
      rcases hq with hq | hq
      · exact absurd hq hc
      · obtain ⟨x0, hx0, hall⟩ := exists_min_snd _ hq
        rw [Option.isSome_map']
        exact List.find?_isSome.mpr ⟨x0, hx0, by simpa using hall⟩

/-- The overworld blueprint's exits are `_generate_exits` on the
prefix-stripped biome. -/
theorem overworldGenerate_exits (o : Oracles) (coords : Coord)
    (ctx : GenerationContext) :
    (overworldGenerate o coords ctx).exits =
      owGenerateExits coords (owLookupBiome ctx) (o.owSeed coords) ctx
        o.strHash := by
  unfold overworldGenerate
  generalize owLookupBiome ctx = b
  rfl

/-- The overworld blueprint's scale is the per-biome lookup with default
"room". -/
theorem overworldGenerate_scale (o : Oracles) (coords : Coord)
    (ctx : GenerationContext) :
    (overworldGenerate o coords ctx).scale =
      (BIOME_SCALES.lookup (owLookupBiome ctx)).getD "room" := by
  unfold overworldGenerate
  generalize owLookupBiome ctx = b
  rfl

/-- The dungeon blueprint's exits are its `_generate_exits`. -/
theorem dungeonGenerate_exits (o : Oracles) (coords : Coord)
    (ctx : GenerationContext) :
    (dungeonGenerate o coords ctx).exits =
      dgGenerateExits coords (o.dgSeed coords) ctx o.strHash := by
  unfold dungeonGenerate
  rfl

/-- The dungeon blueprint's scale is seed-driven, not biome-driven. -/
theorem dungeonGenerate_scale (o : Oracles) (coords : Coord)
    (ctx : GenerationContext) :
    (dungeonGenerate o coords ctx).scale =
      (if o.dgSeed coords % 3 ≠ 0 then "cramped" else "room") := by
  unfold dungeonGenerate
  rfl

/-- A forced direction reaches the overworld blueprint's exits. -/
theorem overworldGenerate_exits_mem (o : Oracles) (coords : Coord)
    (ctx : GenerationContext) (d : Dir) (h : d ∈ owForced coords ctx) :
    (overworldGenerate o coords ctx).exits d = some (destCoords coords d) := by
  rw [overworldGenerate_exits]
  generalize owLookupBiome ctx = b
  exact owGenerateExits_of_mem _ _ _ _ _ _
    (owForced_subset_owSelected _ _ _ _ _ h)

/-- A forced direction reaches the dungeon blueprint's exits. -/
theorem dungeonGenerate_exits_mem (o : Oracles) (coords : Coord)
    (ctx : GenerationContext) (d : Dir) (h : d ∈ dgForced coords ctx) :
    (dungeonGenerate o coords ctx).exits d = some (destCoords coords d) := by
  rw [dungeonGenerate_exits]
  exact dgGenerateExits_of_mem _ _ _ _ _
    (dgForced_subset_dgSelected _ _ _ _ h)

/-- A direction forced for both generators reaches the final blueprint's
exits, whichever generator runs. -/
theorem generateRoom_exits_of_forced (o : Oracles) (coords : Coord)
    (ctx : GenerationContext) (d : Dir) (how : d ∈ owForced coords ctx)
    (hdg : d ∈ dgForced coords ctx) :
    (generateRoom o coords ctx).exits d = some (destCoords coords d) := by
  have hframe :
      (generateRoom o coords ctx).exits d =
        (generatorBlueprint o coords ctx).exits d := by
    rw [(generateRoom_frame o coords ctx).1]
  rw [hframe]
  unfold generatorBlueprint
  dsimp only
  cases getGenerator
      (getBiome o.noise coords.1 coords.2.1 coords.2.2).generator_name with
  | overworld => exact overworldGenerate_exits_mem o coords _ d how
  | dungeon => exact dungeonGenerate_exits_mem o coords _ d hdg

/-- Every landmark `check_landmark` can return carries a catalog entry's
terrain list. -/
theorem checkLandmark_entry (lmSeed : Coord → Nat) (x y z : Int)
    (lm : Landmark) (h : checkLandmark lmSeed x y z = some lm) :
    ∃ e ∈ LANDMARK_CATALOG, lm.terrain_additions = e.terrain := by
  rw [checkLandmark_eq_spec] at h
  split at h
  · obtain ⟨e, he, _, ht⟩ := landmarkAt_entry _ _ _ _ _ h
    exact ⟨e, he, ht⟩
  · unfold firstClosest at h
    obtain ⟨p, hfind, hp1⟩ := Option.map_eq_some'.mp h
    have hmem : p ∈ qualifying lmSeed x y z :=
      List.mem_of_find?_eq_some hfind
    obtain ⟨d, _, hfd⟩ := List.mem_filterMap.mp hmem
    revert hfd
    cases hlm : landmarkAt lmSeed (x + d.1) (y + d.2) z with
    | none => simp
    | some lm2 =>
      dsimp only
      split
      · intro he2
        cases he2
        obtain ⟨e, he, _, ht⟩ := landmarkAt_entry _ _ _ _ _ hlm
        rw [← hp1]
        exact ⟨e, he, ht⟩
      · simp

/-- Every landmark `check_landmark` can return carries exactly one terrain
addition. -/
theorem checkLandmark_terrain_len (lmSeed : Coord → Nat) (x y z : Int)
    (lm : Landmark) (h : checkLandmark lmSeed x y z = some lm) :
    lm.terrain_additions.length = 1 := by
  obtain ⟨e, he, ht⟩ := checkLandmark_entry lmSeed x y z lm h
  rw [ht]
  exact catalog_terrain_len e he

/-- On a single addition, the merge loop appends it exactly when it is not
already present. -/
theorem addLandmarkTerrain_len1 (terrain adds : List TerrainSpec)
    (h : adds.length = 1) :
    addLandmarkTerrain terrain adds =
      terrain ++ adds.filter (fun t => decide (t ∉ terrain)) := by
  match adds, h with
  | [t], _ =>
    unfold addLandmarkTerrain
    by_cases ht : t ∈ terrain
    · simp [List.foldl, ht]
    · simp [List.foldl, ht]

/-- The landmark branch of `generate_room`: modifier recorded, terrain
merged without exact duplicates, biome overridden exactly at the center when
the override is set. -/
theorem generateRoom_landmark_branch (o : Oracles) (coords : Coord)
    (ctx : GenerationContext) (lm : Landmark)
    (h : checkLandmark o.lmSeed coords.1 coords.2.1 coords.2.2 = some lm) :
    (generateRoom o coords ctx).landmark = some lm.description_modifier ∧
      (generateRoom o coords ctx).terrain =
        (generatorBlueprint o coords ctx).terrain ++
          lm.terrain_additions.filter
            (fun t => decide (t ∉ (generatorBlueprint o coords ctx).terrain)) ∧
      (generateRoom o coords ctx).biome =
        (if (lm.biome_override.getD "") ≠ "" ∧ lm.center = coords then
          lm.biome_override.getD ""
        else (generatorBlueprint o coords ctx).biome) := by
  have hlen := checkLandmark_terrain_len _ _ _ _ _ h
  unfold generateRoom generatorBlueprint
  simp only [h]
  refine ⟨trivial, ?_, trivial⟩
  exact addLandmarkTerrain_len1 _ _ hlen

/-- Below ground the dungeon generator runs, so a dungeon-forced direction
reaches the final blueprint's exits. -/
theorem generateRoom_exits_of_dgForced (o : Oracles) (coords : Coord)
    (ctx : GenerationContext) (d : Dir) (hz : coords.2.2 < 0)
    (hdg : d ∈ dgForced coords ctx) :
    (generateRoom o coords ctx).exits d = some (destCoords coords d) := by
  have hframe :
      (generateRoom o coords ctx).exits d =
        (generatorBlueprint o coords ctx).exits d := by
    rw [(generateRoom_frame o coords ctx).1]
  rw [hframe]
  unfold generatorBlueprint
  dsimp only
  rw [getBiome_generator_name, if_pos hz]
  show (dungeonGenerate o coords _).exits d = _
  exact dungeonGenerate_exits_mem o coords _ d hdg

/-- The z-indexed base biome is never "underground_river". -/
theorem undergroundBase_ne (z : Int) :
    undergroundBase z ≠ "underground_river" := by
  unfold undergroundBase
  split
  · rename_i b hb
    unfold undergroundBiomes at hb
    split_ifs at hb <;> (cases hb; decide)
  · split
    · decide
    · decide

/-! The claims. -/

/-- C1: the claim says two invocations of room generation with the same
coordinates and context — in particular in different processes — yield
identical exit maps.  The exit fill of `OverworldGenerator._generate_exits`
sorts candidates by `(seed + hash(d)) % 1000` with Python's per-process
salted string `hash`, so the exit set depends on the process.  At
coordinates (0, 0, 0), biome "forest" (3 base exits), seed 0 and an empty
context, a process whose hash orders the cardinals north-first keeps the
north exit, while one ordering them west-first drops it.  The dungeon
generator's fill loop (same sort key) diverges the same way at
(0, 0, -1). -/
theorem c1_process_hash_divergence :
    owGenerateExits (0, 0, 0) "forest" 0 {} hashA Dir.north =
        some (0, 1, 0) ∧
      owGenerateExits (0, 0, 0) "forest" 0 {} hashB Dir.north = none ∧
      dgGenerateExits (0, 0, -1) 0 {} hashA Dir.north = some (0, 1, -1) ∧
      dgGenerateExits (0, 0, -1) 0 {} hashB Dir.north = none :=
  ⟨by decide, by decide, by decide, by decide⟩

/-- C2 counterexample: a context that arrived from one step up — a
direction one step from the generated coordinates — does not get a return
exit from the overworld generator: `_generate_exits` only scans the four
cardinals for the way back, and "plains" has no vertical exit chance. -/
theorem c2_counterexample :
    ctxUp.came_from = some (destCoords (0, 0, 0) Dir.up) ∧
      (generateRoom o0 (0, 0, 0) ctxUp).exits Dir.up = none :=
  ⟨rfl, by with_unfolding_all rfl⟩

/-- C2 (amended): the return direction to `came_from` is always an exit
when it is one of the four cardinals; for a vertical return direction the
guarantee holds only underground (z < 0), where the dungeon generator also
scans up and down. -/
theorem c2_return_path_amended (o : Oracles) (coords : Coord)
    (ctx : GenerationContext) (d : Dir)
    (hcf : ctx.came_from = some (destCoords coords d))
    (hd : d ∈ cardinals ∨ ((d = Dir.up ∨ d = Dir.down) ∧ coords.2.2 < 0)) :
    (generateRoom o coords ctx).exits d = some (destCoords coords d) := by
  rcases hd with hd | ⟨_, hz⟩
  · exact generateRoom_exits_of_forced o coords ctx d
      (mem_owForced_of_cameFrom coords ctx d hd hcf)
      (mem_dgForced_of_cameFrom coords ctx d hcf)
  · exact generateRoom_exits_of_dgForced o coords ctx d hz
      (mem_dgForced_of_cameFrom coords ctx d hcf)

/-- C2 witness: arriving at (5, 6, 0) from (5, 5, 0), the south exit leads
back to (5, 5, 0). -/
theorem c2_return_path_witness :
    (generateRoom o0 (5, 6, 0) ctxSouth).exits Dir.south = some (5, 5, 0) :=
  c2_return_path_amended o0 (5, 6, 0) ctxSouth Dir.south (by decide)
    (Or.inl (by decide))

/-- C3: a neighbor flagged as already having an exit pointing here always
gets the reciprocal exit, in both generators, mapped one step that way. -/
theorem c3_reciprocity (o : Oracles) (coords : Coord)
    (ctx : GenerationContext) (d : Dir) (h : ctx.neighbors d = true) :
    (generateRoom o coords ctx).exits d = some (destCoords coords d) :=
  generateRoom_exits_of_forced o coords ctx d
    (mem_owForced_of_neighbor coords ctx d h)
    (mem_dgForced_of_neighbor coords ctx d h)

/-- C3 witness: an east neighbor with an exit to us forces the east exit at
(0, 0, 0). -/
theorem c3_reciprocity_witness :
    (generateRoom o0 (0, 0, 0) ctxEast).exits Dir.east = some (1, 0, 0) :=
  c3_reciprocity o0 (0, 0, 0) ctxEast Dir.east (by decide)

/-- C4 counterexample: the generator tags the classifier actually returns
are "dungeon" and "overworld", not the claim's "underground" and
"surface". -/
theorem c4_counterexample :
    (getBiome zeroNoise 0 0 (-1)).generator_name = "dungeon" ∧
      (getBiome zeroNoise 0 0 0).generator_name = "overworld" ∧
      ("dungeon" : String) ≠ "underground" ∧
      ("overworld" : String) ≠ "surface" :=
  ⟨rfl, rfl, by decide, by decide⟩

/-- C4 (amended): the classifier's generator tag is "dungeon" exactly when
z < 0 and "overworld" otherwise — a function of z alone — and the
orchestrator's registry resolves those tags to the dungeon and overworld
generators respectively, so selection is a pure function of the tag. -/
theorem c4_routing_amended (no : NoiseOracle) (x y z : Int) :
    (getBiome no x y z).generator_name =
        (if z < 0 then "dungeon" else "overworld") ∧
      getGenerator (getBiome no x y z).generator_name =
        (if z < 0 then GeneratorKind.dungeon else GeneratorKind.overworld) ∧
      (∀ b : String,
        generatorForBiome b z = (if z < 0 then "dungeon" else "overworld")) := by
  refine ⟨getBiome_generator_name no x y z, ?_, fun b => rfl⟩
  rw [getBiome_generator_name]
  exact getGenerator_of_tag z

/-- C5: `check_landmark` returns the direct center when the query point is
one (hash mod rarity 0); otherwise the first scanned center whose radius
covers the point at minimal Manhattan distance, ties broken by scan order;
and it returns something exactly when a center or such a qualifying
landmark exists. -/
theorem c5_check_landmark (lmSeed : Coord → Nat) (x y z : Int) :
    isLandmarkCenter lmSeed x y z =
        decide (lmSeed (x, y, z) % LANDMARK_RARITY = 0) ∧
      checkLandmark lmSeed x y z =
        (if isLandmarkCenter lmSeed x y z then landmarkAt lmSeed x y z
         else firstClosest (qualifying lmSeed x y z)) ∧
      ((checkLandmark lmSeed x y z).isSome = true ↔
        (isLandmarkCenter lmSeed x y z = true ∨
          qualifying lmSeed x y z ≠ [])) :=
  ⟨rfl, checkLandmark_eq_spec lmSeed x y z,
    checkLandmark_isSome_iff lmSeed x y z⟩

/-- C6: when the landmark oracle fires, `generate_room` records the
modifier, appends exactly the landmark terrain not already present, and
overwrites the biome exactly when the override is set and the query point
is the landmark's center. -/
theorem c6_landmark_overlay (o : Oracles) (coords : Coord)
    (ctx : GenerationContext) (lm : Landmark)
    (h : checkLandmark o.lmSeed coords.1 coords.2.1 coords.2.2 = some lm) :
    (generateRoom o coords ctx).landmark = some lm.description_modifier ∧
      (generateRoom o coords ctx).terrain =
        (generatorBlueprint o coords ctx).terrain ++
          lm.terrain_additions.filter
            (fun t => decide (t ∉ (generatorBlueprint o coords ctx).terrain)) ∧
      (generateRoom o coords ctx).biome =
        (if (lm.biome_override.getD "") ≠ "" ∧ lm.center = coords then
          lm.biome_override.getD ""
        else (generatorBlueprint o coords ctx).biome) :=
  generateRoom_landmark_branch o coords ctx lm h

/-- C6 witness: with every coordinate a landmark center, (0, 0, 0) gets the
watchtower landmark: modifier set, brick pile merged, biome overridden at
the center. -/
theorem c6_landmark_overlay_witness :
    (generateRoom oLm (0, 0, 0) {}).landmark =
        some lmWatch.description_modifier ∧
      (generateRoom oLm (0, 0, 0) {}).terrain =
        (generatorBlueprint oLm (0, 0, 0) {}).terrain ++
          lmWatch.terrain_additions.filter
            (fun t =>
              decide (t ∉ (generatorBlueprint oLm (0, 0, 0) {}).terrain)) ∧
      (generateRoom oLm (0, 0, 0) {}).biome =
        (if (lmWatch.biome_override.getD "") ≠ "" ∧
            lmWatch.center = ((0 : Int), (0 : Int), (0 : Int)) then
          lmWatch.biome_override.getD ""
        else (generatorBlueprint oLm (0, 0, 0) {}).biome) :=
  c6_landmark_overlay oLm (0, 0, 0) {} lmWatch (by decide)

/-- C7: the landmark overlay and description steps leave the generator's
exits, scale, tags and distant features untouched: the returned blueprint
agrees with the selected generator's blueprint on all four. -/
theorem c7_frame_preservation (o : Oracles) (coords : Coord)
    (ctx : GenerationContext) :
    (generateRoom o coords ctx).exits =
        (generatorBlueprint o coords ctx).exits ∧
      (generateRoom o coords ctx).scale =
        (generatorBlueprint o coords ctx).scale ∧
      (generateRoom o coords ctx).tags =
        (generatorBlueprint o coords ctx).tags ∧
      (generateRoom o coords ctx).distant_features =
        (generatorBlueprint o coords ctx).distant_features :=
  generateRoom_frame o coords ctx

/-- C8 counterexample: two underground rooms with the same biome
("shallow_cave") but different coordinate seeds get different scales, so
the dungeon scale is not a function of the biome name (and not the table
default "room" either). -/
theorem c8_counterexample :
    (generateRoom oSeedX (1, 0, -1) {}).biome =
        (generateRoom oSeedX (3, 0, -1) {}).biome ∧
      (generateRoom oSeedX (1, 0, -1) {}).scale = "cramped" ∧
      (generateRoom oSeedX (3, 0, -1) {}).scale = "room" ∧
      ("cramped" : String) ≠ "room" :=
  ⟨by with_unfolding_all rfl, by with_unfolding_all rfl,
    by with_unfolding_all rfl, by decide⟩

/-- C8 (amended): the overworld scale is the fixed per-biome table lookup
(default "room", values among cramped/room/wide/vast); the dungeon scale is
instead derived from the coordinate seed: "cramped" unless the seed is
divisible by 3. -/
theorem c8_scale_amended (o : Oracles) (coords : Coord)
    (ctx : GenerationContext) :
    (overworldGenerate o coords ctx).scale =
        (BIOME_SCALES.lookup (owLookupBiome ctx)).getD "room" ∧
      (dungeonGenerate o coords ctx).scale =
        (if o.dgSeed coords % 3 ≠ 0 then "cramped" else "room") ∧
      (∀ p ∈ BIOME_SCALES,
        p.2 = "cramped" ∨ p.2 = "room" ∨ p.2 = "wide" ∨ p.2 = "vast") :=
  ⟨overworldGenerate_scale o coords ctx, dungeonGenerate_scale o coords ctx,
    by decide⟩

/-- C9: generation is total in the embedding, and every catalog miss falls
back to its documented default: unknown biomes get the default exit
profile, an empty terrain list, and scale "room". -/
theorem c9_total_defaults (b : String) (seed : Nat) (o : Oracles)
    (coords : Coord) (ctx : GenerationContext) (bd : BiomeData) :
    (EXIT_PROFILES.lookup b = none → exitProfileFor b = DEFAULT_PROFILE) ∧
      (TERRAIN_CATALOG.lookup b = none → owGenerateTerrain b seed = []) ∧
      (ctx.biome_data = some bd →
        BIOME_SCALES.lookup (stripWeird bd.biome_name) = none →
        (overworldGenerate o coords ctx).scale = "room") := by
  refine ⟨?_, ?_, ?_⟩
  · intro h
    unfold exitProfileFor
    rw [h]
    rfl
  · intro h
    unfold owGenerateTerrain
    rw [h]
    simp
  · intro hbd h
    rw [overworldGenerate_scale]
    have hlb : owLookupBiome ctx = stripWeird bd.biome_name := by
      unfold owLookupBiome
      rw [hbd]
      rfl
    rw [hlb, h]
    rfl

/-- C9 witness: the unknown biome "volcano" gets the default profile, no
terrain, and scale "room". -/
theorem c9_total_defaults_witness :
    exitProfileFor "volcano" = DEFAULT_PROFILE ∧
      owGenerateTerrain "volcano" 0 = [] ∧
      (overworldGenerate o0 (0, 0, 0) ctxVolcano).scale = "room" :=
  ⟨(c9_total_defaults "volcano" 0 o0 (0, 0, 0) ctxVolcano bdVolcano).1
      (by decide),
    (c9_total_defaults "volcano" 0 o0 (0, 0, 0) ctxVolcano bdVolcano).2.1
      (by decide),
    (c9_total_defaults "volcano" 0 o0 (0, 0, 0) ctxVolcano bdVolcano).2.2
      rfl (by decide)⟩

/-- C10: underground, the weirdness override wins: weirdness above 0.5
forces "crystal_cavern" regardless of moisture, and "underground_river"
appears exactly when moisture exceeds 0.4 and weirdness does not exceed
0.5. -/
theorem c10_underground_precedence (z : Int) (moist weird : ℚ)
    (hz : z < 0) :
    ((1 : ℚ)/2 < weird →
        classifyUnderground z moist weird = "crystal_cavern") ∧
      (classifyUnderground z moist weird = "underground_river" ↔
        ((2 : ℚ)/5 < moist ∧ ¬ (1 : ℚ)/2 < weird)) := by
  clear hz
  unfold classifyUnderground
  dsimp only
  constructor
  · intro hw
    rw [if_pos hw]
  · by_cases hw : (1 : ℚ)/2 < weird
    · rw [if_pos hw]
      apply iff_of_false
      · intro habs
        exact absurd habs (by decide)
      · rintro ⟨_, hn⟩
        exact hn hw
    · rw [if_neg hw]
      by_cases hm : (2 : ℚ)/5 < moist
      · rw [if_pos hm]
        exact iff_of_true rfl ⟨hm, hw⟩
      · rw [if_neg hm]
        apply iff_of_false
        · exact undergroundBase_ne z
        · rintro ⟨hm2, _⟩
          exact hm hm2

/-- C10 witness: at z = -1 with both thresholds exceeded the result is
"crystal_cavern"; with only moisture exceeded it is "underground_river". -/
theorem c10_underground_precedence_witness :
    classifyUnderground (-1) 1 1 = "crystal_cavern" ∧
      classifyUnderground (-1) 1 0 = "underground_river" :=
  ⟨(c10_underground_precedence (-1) 1 1 (by decide)).1
      (by with_unfolding_all decide),
    (c10_underground_precedence (-1) 1 0 (by decide)).2.mpr
      ⟨by with_unfolding_all decide, by with_unfolding_all decide⟩⟩

end Worldgen
